import Mathlib

/-!
Koduino STM32 F10x variant description (variant.h).

A shallow embedding of the declarations of `src/stm32/variants/f10x/variant.h`
(pin and timer identifier constants, the `LED_BUILTIN` alias, the serial
handles and the four function prototypes), together with the tables and the
function bodies that the header only declares.  The header is embedded
declaration by declaration; everything whose definition lives in the
definition file of the variant (`variant.cpp`) is marked `Modelled from the spec`.
-/

namespace F10x

/-! ## The declarations of `variant.h` -/

/-- The C/C++ types that occur in the declarations of the header. -/
inductive CType where
  | uint8_t
  | bool
  | void
  | USARTClass
  deriving DecidableEq, Repr

/-- One object declaration of the header, `extern [const] T name;`. -/
structure VarDecl where
  /-- whether the declaration carries the `const` qualifier -/
  isConst : Bool
  /-- the declared type -/
  type : CType
  /-- the declared symbol -/
  name : String
  deriving DecidableEq, Repr

/-- One function prototype of the header, `R name(T1, ..., Tn);`. -/
structure FunDecl where
  /-- the return type -/
  ret : CType
  /-- the declared symbol -/
  name : String
  /-- the parameter types, in order -/
  params : List CType
  deriving DecidableEq, Repr

/-- The values of the C type `uint8_t`: the integers `0 .. 255`. -/
abbrev uint8_t : Type := Fin 256

/-- Line 12: `extern const uint8_t PA0;` -/
def PA0 : VarDecl := ⟨true, .uint8_t, "PA0"⟩

/-- Line 13: `extern const uint8_t PA1;` -/
def PA1 : VarDecl := ⟨true, .uint8_t, "PA1"⟩

/-- Line 14: `extern const uint8_t PA2;` -/
def PA2 : VarDecl := ⟨true, .uint8_t, "PA2"⟩

/-- Line 15: `extern const uint8_t PA3;` -/
def PA3 : VarDecl := ⟨true, .uint8_t, "PA3"⟩

/-- Line 16: `extern const uint8_t PA4;` -/
def PA4 : VarDecl := ⟨true, .uint8_t, "PA4"⟩

/-- Line 17: `extern const uint8_t PA5;` -/
def PA5 : VarDecl := ⟨true, .uint8_t, "PA5"⟩

/-- Line 18: `extern const uint8_t PA6;` -/
def PA6 : VarDecl := ⟨true, .uint8_t, "PA6"⟩

/-- Line 19: `extern const uint8_t PA7;` -/
def PA7 : VarDecl := ⟨true, .uint8_t, "PA7"⟩

/-- Line 20: `extern const uint8_t PA8;` -/
def PA8 : VarDecl := ⟨true, .uint8_t, "PA8"⟩

/-- Line 21: `extern const uint8_t PA9;` -/
def PA9 : VarDecl := ⟨true, .uint8_t, "PA9"⟩

/-- Line 22: `extern const uint8_t PA10;` -/
def PA10 : VarDecl := ⟨true, .uint8_t, "PA10"⟩

/-- Line 23: `extern const uint8_t PA11;` -/
def PA11 : VarDecl := ⟨true, .uint8_t, "PA11"⟩

/-- Line 24: `extern const uint8_t PA12;` -/
def PA12 : VarDecl := ⟨true, .uint8_t, "PA12"⟩

/-- Line 25: `extern const uint8_t PA13;` -/
def PA13 : VarDecl := ⟨true, .uint8_t, "PA13"⟩

/-- Line 26: `extern const uint8_t PA14;` -/
def PA14 : VarDecl := ⟨true, .uint8_t, "PA14"⟩

/-- Line 27: `extern const uint8_t PA15;` -/
def PA15 : VarDecl := ⟨true, .uint8_t, "PA15"⟩

/-- Line 28: `extern const uint8_t PB0;` -/
def PB0 : VarDecl := ⟨true, .uint8_t, "PB0"⟩

/-- Line 29: `extern const uint8_t PB1;` -/
def PB1 : VarDecl := ⟨true, .uint8_t, "PB1"⟩

/-- Line 30: `extern const uint8_t PB2;` -/
def PB2 : VarDecl := ⟨true, .uint8_t, "PB2"⟩

/-- Line 31: `extern const uint8_t PB3;` -/
def PB3 : VarDecl := ⟨true, .uint8_t, "PB3"⟩

/-- Line 32: `extern const uint8_t PB4;` -/
def PB4 : VarDecl := ⟨true, .uint8_t, "PB4"⟩

/-- Line 33: `extern const uint8_t PB5;` -/
def PB5 : VarDecl := ⟨true, .uint8_t, "PB5"⟩

/-- Line 34: `extern const uint8_t PB6;` -/
def PB6 : VarDecl := ⟨true, .uint8_t, "PB6"⟩

/-- Line 35: `extern const uint8_t PB7;` -/
def PB7 : VarDecl := ⟨true, .uint8_t, "PB7"⟩

/-- Line 36: `extern const uint8_t PB8;` -/
def PB8 : VarDecl := ⟨true, .uint8_t, "PB8"⟩

/-- Line 37: `extern const uint8_t PB9;` -/
def PB9 : VarDecl := ⟨true, .uint8_t, "PB9"⟩

/-- Line 38: `extern const uint8_t PB10;` -/
def PB10 : VarDecl := ⟨true, .uint8_t, "PB10"⟩

/-- Line 39: `extern const uint8_t PB11;` -/
def PB11 : VarDecl := ⟨true, .uint8_t, "PB11"⟩

/-- Line 40: `extern const uint8_t PB12;` -/
def PB12 : VarDecl := ⟨true, .uint8_t, "PB12"⟩

/-- Line 41: `extern const uint8_t PB13;` -/
def PB13 : VarDecl := ⟨true, .uint8_t, "PB13"⟩

/-- Line 42: `extern const uint8_t PB14;` -/
def PB14 : VarDecl := ⟨true, .uint8_t, "PB14"⟩

/-- Line 43: `extern const uint8_t PB15;` -/
def PB15 : VarDecl := ⟨true, .uint8_t, "PB15"⟩

/-- Line 44: `extern const uint8_t PC13;` -/
def PC13 : VarDecl := ⟨true, .uint8_t, "PC13"⟩

/-- Line 45: `extern const uint8_t PC14;` -/
def PC14 : VarDecl := ⟨true, .uint8_t, "PC14"⟩

/-- Line 46: `extern const uint8_t PC15;` -/
def PC15 : VarDecl := ⟨true, .uint8_t, "PC15"⟩

/-- Line 48: `extern const uint8_t TIMER1;` -/
def TIMER1 : VarDecl := ⟨true, .uint8_t, "TIMER1"⟩

/-- Line 49: `extern const uint8_t TIMER2;` -/
def TIMER2 : VarDecl := ⟨true, .uint8_t, "TIMER2"⟩

/-- Line 50: `extern const uint8_t TIMER3;` -/
def TIMER3 : VarDecl := ⟨true, .uint8_t, "TIMER3"⟩

/-- Line 51: `extern const uint8_t TIMER4;` -/
def TIMER4 : VarDecl := ⟨true, .uint8_t, "TIMER4"⟩

/-- Line 57: `#define LED_BUILTIN PA5`; the alias expands to the symbol `PA5`. -/
def LED_BUILTIN : VarDecl := PA5

/-- Line 64: `extern USARTClass Serial1;` -/
def Serial1 : VarDecl := ⟨false, .USARTClass, "Serial1"⟩

/-- Line 65: `extern USARTClass Serial2;` -/
def Serial2 : VarDecl := ⟨false, .USARTClass, "Serial2"⟩

/-- Line 66: `extern USARTClass Serial3;` -/
def Serial3 : VarDecl := ⟨false, .USARTClass, "Serial3"⟩

/-- Lines 12-46: the pin identifier declarations, in the order of the header. -/
def pinDecls : List VarDecl :=
  [PA0, PA1, PA2, PA3, PA4, PA5, PA6, PA7, PA8, PA9, PA10, PA11, PA12, PA13, PA14, PA15, PB0,
   PB1, PB2, PB3, PB4, PB5, PB6, PB7, PB8, PB9, PB10, PB11, PB12, PB13, PB14, PB15, PC13, PC14,
   PC15]

/-- Lines 48-51: the timer identifier declarations, in the order of the header. -/
def timerDecls : List VarDecl :=
  [TIMER1, TIMER2, TIMER3, TIMER4]

/-- Lines 64-66: the serial handle declarations, in the order of the header. -/
def serialDecls : List VarDecl :=
  [Serial1, Serial2, Serial3]

/-- Every object declaration of the header, in the order of the header. -/
def externDecls : List VarDecl :=
  pinDecls ++ timerDecls ++ serialDecls

/-- Line 69: `bool isTimer32Bit(uint8_t tim);` -/
def isTimer32Bit_proto : FunDecl := ⟨.bool, "isTimer32Bit", [.uint8_t]⟩

/-- Line 70: `uint8_t numChannelsInTimer(uint8_t tim);` -/
def numChannelsInTimer_proto : FunDecl := ⟨.uint8_t, "numChannelsInTimer", [.uint8_t]⟩

/-- Line 71: `bool isAnalogPin(uint8_t pin);` -/
def isAnalogPin_proto : FunDecl := ⟨.bool, "isAnalogPin", [.uint8_t]⟩

/-- Line 72: `void variantInit();` -/
def variantInit_proto : FunDecl := ⟨.void, "variantInit", []⟩

/-- Lines 69-72: every function prototype of the header, in the order of the header. -/
def funDecls : List FunDecl :=
  [isTimer32Bit_proto, numChannelsInTimer_proto, isAnalogPin_proto, variantInit_proto]

/-- The naming convention of the pin symbols: `P`, the port letter, the pin number in
decimal (`PA0`, `PB12`, `PC13`). -/
def pinSymbol (port : Char) (n : Nat) : String :=
  "P" ++ String.singleton port ++ Nat.repr n

/-- The naming convention of the timer symbols: `TIMER` and the timer number in decimal. -/
def timerSymbol (n : Nat) : String :=
  "TIMER" ++ Nat.repr n

/-- The pin numbers that the claim about the declared pin set allows on a port. -/
def pinDeclared (port : Char) (n : Nat) : Prop :=
  (port = 'A' ∧ n ≤ 15) ∨ (port = 'B' ∧ n ≤ 15) ∨ (port = 'C' ∧ 13 ≤ n ∧ n ≤ 15)

instance (port : Char) (n : Nat) : Decidable (pinDeclared port n) := by
  unfold pinDeclared; infer_instance

/-! ## The tables and the function bodies

The header declares the constants and the four functions; their definitions are in the
definition file of the variant (`variant.cpp`).  They are modelled from the specification. -/

/-- Modelled from the spec: the TimerDescriptor record of the data model (section 3),
`{ bitWidth ∈ {16, 32}, channelCount ∈ small positive integer }`; the Timer Descriptor Table
that holds these records is in the missing definition file.  The channel count has the type
that `numChannelsInTimer` returns. -/
structure TimerDescriptor where
  /-- width of the counter register in bits -/
  bitWidth : Nat
  /-- number of compare/capture channels -/
  channelCount : uint8_t
  deriving DecidableEq, Repr

/-- Modelled from the spec: the PinCapability record of the data model (section 3),
`{ isAnalogCapable: bool, drivingTimer: optional TimerIdentifier }`; the Pin Capability Table
that holds these records is in the missing definition file. -/
structure PinCapability where
  /-- whether the pin can be used as an analog input -/
  isAnalogCapable : Bool
  /-- the timer that drives the pin, if any -/
  drivingTimer : Option uint8_t
  deriving DecidableEq, Repr

/-- Modelled from the spec: the invariant of a TimerDescriptor (section 3): the bit width is
16 or 32 and the channel count is positive. -/
def TimerDescriptor.valid (d : TimerDescriptor) : Prop :=
  (d.bitWidth = 16 ∨ d.bitWidth = 32) ∧ 1 ≤ d.channelCount.val

instance (d : TimerDescriptor) : Decidable d.valid := by
  unfold TimerDescriptor.valid; infer_instance

/-- Modelled from the spec: what the missing definition file of a variant supplies: the value
of every declared `extern const uint8_t` symbol, the Pin Capability Table and the Timer
Descriptor Table (section 2), both static mappings from an identifier value to a record. -/
structure Variant where
  /-- the value the definition file gives to a declared symbol -/
  value : String → uint8_t
  /-- the Pin Capability Table -/
  pinTable : uint8_t → Option PinCapability
  /-- the Timer Descriptor Table -/
  timerTable : uint8_t → Option TimerDescriptor

/-- The value that a declared identifier resolves to at link time. -/
def Variant.resolve (V : Variant) (d : VarDecl) : uint8_t :=
  V.value d.name

/-- Modelled from the spec: the body of `isTimer32Bit` (declared at line 69, defined in the
missing definition file); section 4.2: "true iff the timer's `bitWidth == 32`".  The
specification defines nothing for an identifier without a descriptor; the model answers
false there. -/
def isTimer32Bit (V : Variant) (tim : uint8_t) : Bool :=
  match V.timerTable tim with
  | some d => d.bitWidth == 32
  | none => false

/-- Modelled from the spec: the body of `numChannelsInTimer` (declared at line 70, defined in
the missing definition file); section 4.2: "returns the number of independent
compare/capture channels".  The specification defines nothing for an identifier without a
descriptor; the model answers 0 there. -/
def numChannelsInTimer (V : Variant) (tim : uint8_t) : uint8_t :=
  match V.timerTable tim with
  | some d => d.channelCount
  | none => 0

/-- Modelled from the spec: the body of `isAnalogPin` (declared at line 71, defined in the
missing definition file); section 4.1: "returns whether the pin's capability record has
`isAnalogCapable = true`".  An identifier without a record has no record with
`isAnalogCapable = true`; the model answers false there. -/
def isAnalogPin (V : Variant) (pin : uint8_t) : Bool :=
  match V.pinTable pin with
  | some r => r.isAnalogCapable
  | none => false

/-- Modelled from the spec: the tables have a record for every declared identifier
(sections 4.1 and 4.2: "for every valid PinIdentifier, return its PinCapability", "for every
valid TimerIdentifier, return its TimerDescriptor") and every timer record satisfies the
invariant of the data model. -/
def Variant.complete (V : Variant) : Prop :=
  (∀ d ∈ pinDecls, (V.pinTable (V.resolve d)).isSome = true) ∧
  (∀ d ∈ timerDecls, (V.timerTable (V.resolve d)).isSome = true ∧
    ∀ t ∈ V.timerTable (V.resolve d), t.valid)

instance (V : Variant) : Decidable V.complete := by
  unfold Variant.complete; infer_instance

/-- Modelled from the spec: the consistency that `variantInit` checks before it touches the
hardware (sections 4.4 and 7): every declared pin and timer has a record and every
`drivingTimer` of a declared pin is present in the Timer Descriptor Table. -/
def Variant.consistent (V : Variant) : Bool :=
  pinDecls.all (fun d =>
    match V.pinTable (V.resolve d) with
    | none => false
    | some r =>
      match r.drivingTimer with
      | none => true
      | some t => (V.timerTable t).isSome) &&
  timerDecls.all (fun d => (V.timerTable (V.resolve d)).isSome)

/-- The pin declaration that the naming convention gives for a port letter and a pin
number. -/
def pinDecl (port : Char) (n : Nat) : VarDecl :=
  ⟨true, .uint8_t, pinSymbol port n⟩

/-! ### Hardware bring-up -/

/-- Modelled from the spec: the three clock groups of step 1 of section 4.4, "the clock(s)
feeding the peripheral bus(es) that the Pin/Timer/Serial tables reference". -/
inductive ClockGroup where
  | pins
  | timers
  | serial
  deriving DecidableEq, Repr

/-- Modelled from the spec: the electrical state of a pin (section 4.4, step 2: "a defined,
safe default electrical state (input, not floating-undefined)"). -/
inductive PinState where
  | floating
  | input
  | driven
  deriving DecidableEq, Repr

/-- Modelled from the spec: the peripherals that the tables of the variant can declare as
present (section 4.4, step 3): a timer, named by its identifier value, or a serial port,
named by its handle. -/
inductive Peripheral where
  | timer (tim : uint8_t)
  | serial (handle : VarDecl)
  deriving DecidableEq, Repr

/-- Modelled from the spec: the observable hardware configuration that `variantInit`
establishes (section 4.4): which bus clocks run, the electrical state of every pin, and which
peripherals are enabled. -/
structure Hardware where
  /-- whether the clock of a group is enabled -/
  clock : ClockGroup → Bool
  /-- the electrical state of the pin with the given identifier value -/
  pinState : uint8_t → PinState
  /-- whether a peripheral is enabled -/
  enabled : Peripheral → Bool

/-- Whether an identifier value is the value of one of the declared pins. -/
def Variant.isPin (V : Variant) (v : uint8_t) : Bool :=
  pinDecls.any (fun d => V.resolve d == v)

/-- Whether an identifier value is the value of one of the declared timers. -/
def Variant.isTimer (V : Variant) (v : uint8_t) : Bool :=
  timerDecls.any (fun d => V.resolve d == v)

/-- Modelled from the spec: the peripherals that the tables declare as present: the declared
timers and the declared serial handles. -/
def Variant.present (V : Variant) : Peripheral → Bool
  | .timer tim => V.isTimer tim
  | .serial handle => serialDecls.contains handle

/-- Modelled from the spec: step 1 of section 4.4, enable the bus clocks. -/
def enableClocks (hw : Hardware) : Hardware :=
  { hw with clock := fun _ => true }

/-- Modelled from the spec: step 2 of section 4.4, bring every pin of the variant to the
safe default state, input. -/
def defaultPins (V : Variant) (hw : Hardware) : Hardware :=
  { hw with pinState := fun v => if V.isPin v then PinState.input else hw.pinState v }

/-- Modelled from the spec: step 3 of section 4.4, enable the peripherals that the tables
declare as present, and no others. -/
def enablePeripherals (V : Variant) (hw : Hardware) : Hardware :=
  { hw with enabled := fun p => if V.present p then true else hw.enabled p }

/-- Modelled from the spec: the body of `variantInit` (declared at line 72, defined in the
missing definition file); section 4.4: an inconsistent table is a trap (`none`), otherwise
the three steps run in order. -/
def variantInit (V : Variant) (hw : Hardware) : Option Hardware :=
  if V.consistent then
    some (enablePeripherals V (defaultPins V (enableClocks hw)))
  else
    none

/-! ### A sample variant -/

/-- Sample data: the k-th declared pin has the value k, the k-th declared timer the
value k. -/
def sampleValue (name : String) : uint8_t :=
  if name ∈ timerDecls.map VarDecl.name then
    Fin.ofNat ((timerDecls.map VarDecl.name).indexOf name)
  else
    Fin.ofNat ((pinDecls.map VarDecl.name).indexOf name)

/-- Sample data: pins 0-7 (PA0-PA7) and 16-17 (PB0, PB1) are analog capable, pins 0-3
(PA0-PA3) are driven by the timer with value 1. -/
def samplePinTable (v : uint8_t) : Option PinCapability :=
  if v.val < 35 then
    some ⟨decide (v.val < 8 ∨ v.val = 16 ∨ v.val = 17), if v.val < 4 then some 1 else none⟩
  else
    none

/-- Sample data: four 16-bit timers with four channels each. -/
def sampleTimerTable (v : uint8_t) : Option TimerDescriptor :=
  if v.val < 4 then some ⟨16, 4⟩ else none

/-- Sample data: a variant in the sense of the model, used to instantiate the theorems. -/
def sampleVariant : Variant :=
  ⟨sampleValue, samplePinTable, sampleTimerTable⟩

/-- The digit accumulator only grows. -/
theorem toDigitsCore_length_ge (b f n : Nat) (acc : List Char) :
    acc.length ≤ (Nat.toDigitsCore b f n acc).length := by
  induction f generalizing n acc with
  | zero => simp [Nat.toDigitsCore]
  | succ f ih =>
    simp only [Nat.toDigitsCore]
    split
    · simp
    · exact Nat.le_trans (by simp) (ih _ _)

/-- A number of three or more decimal digits is rendered with three or more characters. -/
theorem repr_length_ge_three (n : Nat) (h : 100 ≤ n) : 3 ≤ (Nat.repr n).length := by
  obtain ⟨f, hf⟩ : ∃ f, n + 1 = f + 3 := ⟨n - 2, by omega⟩
  have h1 : n / 10 ≠ 0 := by omega
  have h2 : n / 10 / 10 ≠ 0 := by omega
  have h3 : (Nat.repr n).length = (Nat.toDigitsCore 10 (f + 3) n []).length := by
    rw [← hf]; rfl
  rw [h3]
  simp only [Nat.toDigitsCore, h1, h2, if_false]
  split
  · simp
  · exact Nat.le_trans (by simp) (toDigitsCore_length_ge _ _ _ _)

/-- A number rendered with at most two characters is below one hundred. -/
theorem lt_hundred_of_repr_length (n : Nat) (h : (Nat.repr n).length ≤ 2) : n < 100 := by
  by_contra hn
  have := repr_length_ge_three n (by omega)
  omega

theorem pinSymbol_data (port : Char) (n : Nat) :
    (pinSymbol port n).data = 'P' :: port :: (Nat.repr n).data := rfl

theorem pinSymbol_length (port : Char) (n : Nat) :
    (pinSymbol port n).length = 2 + (Nat.repr n).length := by
  show (pinSymbol port n).data.length = 2 + (Nat.repr n).data.length
  rw [pinSymbol_data]; simp; omega

theorem timerSymbol_length (n : Nat) :
    (timerSymbol n).length = 5 + (Nat.repr n).length := by
  show (timerSymbol n).data.length = 5 + (Nat.repr n).data.length
  have : (timerSymbol n).data = 'T' :: 'I' :: 'M' :: 'E' :: 'R' :: (Nat.repr n).data := rfl
  rw [this]; simp; omega

/-- Every declared pin symbol has at most four characters and its port letter is A, B or
C. -/
theorem pinNames_shape : ∀ s ∈ pinDecls.map VarDecl.name,
    s.length ≤ 4 ∧ s.data.get? 1 ∈ [some 'A', some 'B', some 'C'] := by
  decide

/-- Every declared symbol has at most seven characters. -/
theorem externNames_length : ∀ s ∈ externDecls.map VarDecl.name, s.length ≤ 7 := by
  decide

set_option maxRecDepth 100000 in
/-- On the ports A, B, C and for pin numbers below one hundred, only the pins of the claim
are declared. -/
theorem pinNames_bounded : ∀ port ∈ ['A', 'B', 'C'], ∀ n < 100,
    pinSymbol port n ∈ pinDecls.map VarDecl.name → pinDeclared port n := by
  decide

set_option maxRecDepth 100000 in
/-- Among the timer numbers below one hundred, only 1 to 4 name a declared symbol. -/
theorem timerNames_bounded : ∀ n < 100,
    timerSymbol n ∈ externDecls.map VarDecl.name → 1 ≤ n ∧ n ≤ 4 := by
  decide

/-- The symbol that the naming convention gives to port `port`, pin `n` is declared exactly
when the port is A or B and `n ≤ 15`, or the port is C and `13 ≤ n ≤ 15`. -/
theorem pinSymbol_mem_iff (port : Char) (n : Nat) :
    pinSymbol port n ∈ pinDecls.map VarDecl.name ↔ pinDeclared port n := by
  constructor
  · intro h
    obtain ⟨hlen, hport⟩ := pinNames_shape _ h
    rw [pinSymbol_length] at hlen
    have hn : n < 100 := lt_hundred_of_repr_length n (by omega)
    have hp : port ∈ ['A', 'B', 'C'] := by
      rw [pinSymbol_data] at hport
      simpa using hport
    exact pinNames_bounded port hp n hn h
  · intro h
    have hA : ∀ k < 16, pinSymbol 'A' k ∈ pinDecls.map VarDecl.name := by decide
    have hB : ∀ k < 16, pinSymbol 'B' k ∈ pinDecls.map VarDecl.name := by decide
    have hC : ∀ k < 3, pinSymbol 'C' (13 + k) ∈ pinDecls.map VarDecl.name := by decide
    rcases h with ⟨rfl, hn⟩ | ⟨rfl, hn⟩ | ⟨rfl, h13, hn⟩
    · exact hA n (by omega)
    · exact hB n (by omega)
    · obtain ⟨k, rfl⟩ : ∃ k, n = 13 + k := ⟨n - 13, by omega⟩
      exact hC k (by omega)

/-- The symbol `TIMER<n>` is declared in the header exactly for `n = 1, 2, 3, 4`. -/
theorem timerSymbol_mem_iff (n : Nat) :
    timerSymbol n ∈ externDecls.map VarDecl.name ↔ 1 ≤ n ∧ n ≤ 4 := by
  constructor
  · intro h
    have hlen := externNames_length _ h
    rw [timerSymbol_length] at hlen
    exact timerNames_bounded n (lt_hundred_of_repr_length n (by omega)) h
  · rintro ⟨h1, h4⟩
    have hT : ∀ k < 4, timerSymbol (1 + k) ∈ externDecls.map VarDecl.name := by decide
    obtain ⟨k, rfl⟩ : ∃ k, n = 1 + k := ⟨n - 1, by omega⟩
    exact hT k (by omega)

/-! ## The claims about the declarations of the header -/

/-- C7: `LED_BUILTIN` resolves to exactly the pin identifier `PA5`: the alias is the symbol
`PA5`, so under every definition of the constants it has the value of `PA5`, every lookup
`f` over pin identifiers gives `f(LED_BUILTIN) = f(PA5)`, and in particular the capability
record and `isAnalogPin` reached through `LED_BUILTIN` are those reached through `PA5`. -/
theorem LED_BUILTIN_is_PA5 :
    LED_BUILTIN = PA5 ∧
    ∀ V : Variant, V.resolve LED_BUILTIN = V.resolve PA5 ∧
      (∀ (α : Type) (f : uint8_t → α), f (V.resolve LED_BUILTIN) = f (V.resolve PA5)) ∧
      V.pinTable (V.resolve LED_BUILTIN) = V.pinTable (V.resolve PA5) ∧
      isAnalogPin V (V.resolve LED_BUILTIN) = isAnalogPin V (V.resolve PA5) :=
  ⟨rfl, fun _ => ⟨rfl, fun _ _ => rfl, rfl, rfl⟩⟩

/-- C8: the declared pin identifiers are exactly port A pins 0..15, port B pins 0..15 and
port C pins 13..15: a pin name `P<port><n>` is declared if and only if (port = A and
n ≤ 15) or (port = B and n ≤ 15) or (port = C and 13 ≤ n ≤ 15); the declarations are the
35 `const uint8_t` declarations with these names, without repetition. -/
theorem pinDecls_exact :
    (∀ (port : Char) (n : Nat),
      pinSymbol port n ∈ pinDecls.map VarDecl.name ↔ pinDeclared port n) ∧
    pinDecls = (List.range 16).map (pinDecl 'A') ++ (List.range 16).map (pinDecl 'B') ++
      [13, 14, 15].map (pinDecl 'C') ∧
    pinDecls.length = 35 ∧
    (pinDecls.map VarDecl.name).Nodup ∧
    (∀ d ∈ pinDecls, d.isConst = true ∧ d.type = CType.uint8_t) ∧
    (∀ d ∈ externDecls, d.name.data.head? = some 'P' → d ∈ pinDecls) := by
  refine ⟨pinSymbol_mem_iff, by decide, by decide, by decide, by decide, by decide⟩

/-- C9: the header declares exactly four timer identifiers, `TIMER1`, `TIMER2`, `TIMER3`
and `TIMER4`, each a `const uint8_t`, and no others: `TIMER<n>` is a declared symbol if and
only if `1 ≤ n ≤ 4`, and no other declaration of the header has a name that starts with
`TIMER`. -/
theorem timerDecls_exact :
    timerDecls = [TIMER1, TIMER2, TIMER3, TIMER4] ∧
    timerDecls = (List.range' 1 4).map (fun n => ⟨true, CType.uint8_t, timerSymbol n⟩) ∧
    timerDecls.length = 4 ∧
    (timerDecls.map VarDecl.name).Nodup ∧
    (∀ d ∈ timerDecls, d.isConst = true ∧ d.type = CType.uint8_t) ∧
    (∀ n : Nat, timerSymbol n ∈ externDecls.map VarDecl.name ↔ 1 ≤ n ∧ n ≤ 4) ∧
    (∀ d ∈ externDecls, "TIMER".data.isPrefixOf d.name.data = true → d ∈ timerDecls) := by
  refine ⟨rfl, by decide, by decide, by decide, by decide, timerSymbol_mem_iff, by decide⟩

/-! ## The claims about the lookup functions -/

/-- Whatever values the constants have, the identifier values that no declaration of the
list resolves to are at least `256 - length` many. -/
theorem card_undeclared (V : Variant) (l : List VarDecl) :
    256 - l.length ≤
      (Finset.univ.filter (fun v : uint8_t => ∀ d ∈ l, V.resolve d ≠ v)).card := by
  have hS : (l.map V.resolve).toFinset.card ≤ l.length := by
    simpa using List.toFinset_card_le (l.map V.resolve)
  have hEq : Finset.univ.filter (fun v : uint8_t => ∀ d ∈ l, V.resolve d ≠ v) =
      (l.map V.resolve).toFinsetᶜ := by
    ext v
    simp
  rw [hEq]
  have hc : (l.map V.resolve).toFinsetᶜ.card = 256 - (l.map V.resolve).toFinset.card := by
    rw [Finset.card_compl, Fintype.card_fin]
  omega

/-- C1: for every declared pin identifier of a variant whose tables are complete, the Pin
Capability Table has a record for the pin and `isAnalogPin` returns the `isAnalogCapable`
field of that record; the result is a function of the pin alone (the same pin gives the same
boolean) and depends on nothing but the record of that pin: any variant with the same record
at that pin gives the same answer. -/
theorem isAnalogPin_matches_table (V : Variant) (hV : V.complete) (d : VarDecl)
    (hd : d ∈ pinDecls) :
    ∃ r, V.pinTable (V.resolve d) = some r ∧
      isAnalogPin V (V.resolve d) = r.isAnalogCapable ∧
      (∀ pin, pin = V.resolve d → isAnalogPin V pin = isAnalogPin V (V.resolve d)) ∧
      (∀ W : Variant, W.pinTable (V.resolve d) = some r →
        isAnalogPin W (V.resolve d) = isAnalogPin V (V.resolve d)) := by
  obtain ⟨r, hr⟩ := Option.isSome_iff_exists.mp (hV.1 d hd)
  refine ⟨r, hr, ?_, ?_, ?_⟩
  · simp [isAnalogPin, hr]
  · rintro pin rfl; rfl
  · intro W hW
    simp [isAnalogPin, hr, hW]

/-- Witness of C1 on the sample variant at `PA5`. -/
theorem isAnalogPin_matches_table_witness :
    sampleVariant.complete ∧ PA5 ∈ pinDecls ∧
    ∃ r, sampleVariant.pinTable (sampleVariant.resolve PA5) = some r ∧
      isAnalogPin sampleVariant (sampleVariant.resolve PA5) = r.isAnalogCapable ∧
      (∀ pin, pin = sampleVariant.resolve PA5 →
        isAnalogPin sampleVariant pin = isAnalogPin sampleVariant (sampleVariant.resolve PA5)) ∧
      (∀ W : Variant, W.pinTable (sampleVariant.resolve PA5) = some r →
        isAnalogPin W (sampleVariant.resolve PA5) =
          isAnalogPin sampleVariant (sampleVariant.resolve PA5)) :=
  ⟨by decide, by decide, isAnalogPin_matches_table sampleVariant (by decide) PA5 (by decide)⟩

/-- C2: for every declared timer identifier of a variant whose tables are complete, the
Timer Descriptor Table has a descriptor for the timer and `isTimer32Bit` is true if and only
if that descriptor has `bitWidth = 32`; when the descriptor is `bitWidth = 16,
channelCount = 4`, `isTimer32Bit` returns false and `numChannelsInTimer` returns 4. -/
theorem isTimer32Bit_iff_bitWidth (V : Variant) (hV : V.complete) (d : VarDecl)
    (hd : d ∈ timerDecls) :
    ∃ t, V.timerTable (V.resolve d) = some t ∧
      (isTimer32Bit V (V.resolve d) = true ↔ t.bitWidth = 32) ∧
      (t.bitWidth = 16 → t.channelCount = 4 →
        isTimer32Bit V (V.resolve d) = false ∧ numChannelsInTimer V (V.resolve d) = 4) := by
  obtain ⟨t, ht⟩ := Option.isSome_iff_exists.mp (hV.2 d hd).1
  refine ⟨t, ht, ?_, ?_⟩
  · simp [isTimer32Bit, ht]
  · intro h16 h4
    simp [isTimer32Bit, numChannelsInTimer, ht, h16, h4]

/-- Witness of C2 on the sample variant at `TIMER2`, a 16-bit timer with four channels. -/
theorem isTimer32Bit_iff_bitWidth_witness :
    sampleVariant.complete ∧ TIMER2 ∈ timerDecls ∧
    ∃ t, sampleVariant.timerTable (sampleVariant.resolve TIMER2) = some t ∧
      (isTimer32Bit sampleVariant (sampleVariant.resolve TIMER2) = true ↔ t.bitWidth = 32) ∧
      (t.bitWidth = 16 → t.channelCount = 4 →
        isTimer32Bit sampleVariant (sampleVariant.resolve TIMER2) = false ∧
        numChannelsInTimer sampleVariant (sampleVariant.resolve TIMER2) = 4) :=
  ⟨by decide, by decide, isTimer32Bit_iff_bitWidth sampleVariant (by decide) TIMER2 (by decide)⟩

/-- C4 fails as stated: the parameter type of the three queries is `uint8_t`, and under no
definition of the constants is every `uint8_t` value a declared pin identifier, nor is every
`uint8_t` value a declared timer identifier; on the sample variant the call
`isAnalogPin(35)` is well typed although 35 is the value of no declared pin. -/
theorem not_every_uint8_declared :
    (¬ ∃ V : Variant, (∀ v : uint8_t, ∃ d ∈ pinDecls, V.resolve d = v) ∨
      (∀ v : uint8_t, ∃ d ∈ timerDecls, V.resolve d = v)) ∧
    (∀ d ∈ pinDecls, sampleVariant.resolve d ≠ 35) ∧
    isAnalogPin sampleVariant 35 = false := by
  refine ⟨?_, by decide, by decide⟩
  rintro ⟨V, h | h⟩
  · have hc := card_undeclared V pinDecls
    have he : Finset.univ.filter (fun v : uint8_t => ∀ d ∈ pinDecls, V.resolve d ≠ v) = ∅ := by
      ext v
      obtain ⟨d, hd, hv⟩ := h v
      simp only [Finset.mem_filter, Finset.mem_univ, true_and, Finset.not_mem_empty, iff_false]
      exact fun hall => hall d hd hv
    rw [he] at hc
    have hl : pinDecls.length = 35 := by decide
    rw [hl] at hc
    simp at hc
  · have hc := card_undeclared V timerDecls
    have he : Finset.univ.filter (fun v : uint8_t => ∀ d ∈ timerDecls, V.resolve d ≠ v) = ∅ := by
      ext v
      obtain ⟨d, hd, hv⟩ := h v
      simp only [Finset.mem_filter, Finset.mem_univ, true_and, Finset.not_mem_empty, iff_false]
      exact fun hall => hall d hd hv
    rw [he] at hc
    have hl : timerDecls.length = 4 := by decide
    rw [hl] at hc
    simp at hc

/-- C4 as amended: the three queries take a raw `uint8_t`, a type of 256 values; the header
declares 35 pin identifiers and 4 timer identifiers, so under every definition of the
constants at least 221 values of the parameter type of `isAnalogPin` are not declared pin
identifiers and at least 252 values of the parameter type of `isTimer32Bit` and
`numChannelsInTimer` are not declared timer identifiers: an identifier absent from the
tables is representable, and passing only declared identifiers is left to the caller. -/
theorem undeclared_identifiers_representable (V : Variant) :
    isAnalogPin_proto.params = [CType.uint8_t] ∧
    isTimer32Bit_proto.params = [CType.uint8_t] ∧
    numChannelsInTimer_proto.params = [CType.uint8_t] ∧
    Fintype.card uint8_t = 256 ∧
    221 ≤ (Finset.univ.filter (fun v : uint8_t => ∀ d ∈ pinDecls, V.resolve d ≠ v)).card ∧
    252 ≤ (Finset.univ.filter (fun v : uint8_t => ∀ d ∈ timerDecls, V.resolve d ≠ v)).card := by
  refine ⟨rfl, rfl, rfl, Fintype.card_fin 256, ?_, ?_⟩
  · have hc := card_undeclared V pinDecls
    have hl : pinDecls.length = 35 := by decide
    omega
  · have hc := card_undeclared V timerDecls
    have hl : timerDecls.length = 4 := by decide
    omega

/-- The three bring-up steps leave a state that they have produced unchanged. -/
theorem bringUp_fixed (V : Variant) (hw : Hardware) :
    enablePeripherals V (defaultPins V (enableClocks
      (enablePeripherals V (defaultPins V (enableClocks hw))))) =
    enablePeripherals V (defaultPins V (enableClocks hw)) := by
  simp only [enablePeripherals, defaultPins, enableClocks]
  congr 1
  · funext v
    split <;> rfl
  · funext p
    split <;> simp_all

/-- C6: `variantInit` is idempotent on the hardware configuration: for every variant and
every starting state, running it twice gives the result of running it once (with an
inconsistent table both trap); with consistent tables the first call returns a state and the
second call returns the same state. -/
theorem variantInit_idempotent (V : Variant) (hw : Hardware) :
    (variantInit V hw).bind (variantInit V) = variantInit V hw ∧
    (V.consistent = true →
      ∃ hw1, variantInit V hw = some hw1 ∧ variantInit V hw1 = some hw1) ∧
    (V.consistent = false → variantInit V hw = none) := by
  refine ⟨?_, ?_, ?_⟩
  · unfold variantInit
    split
    · simp [*, bringUp_fixed]
    · rfl
  · intro hc
    refine ⟨enablePeripherals V (defaultPins V (enableClocks hw)), ?_, ?_⟩
    · simp [variantInit, hc]
    · simp [variantInit, hc, bringUp_fixed]
  · intro hc
    simp [variantInit, hc]

end F10x
